import Mathlib

/-!
Shallow embedding of `src/server/python/physics_nemo_bridge.py`, the
request/response physics bridge of the simulation-based digital twin.

Modelling conventions:
* Python floats are modelled as real numbers (`ℝ`); `x ** y` with a
  non-integral float exponent is `Real.rpow` (the two agree on the
  non-negative bases considered here).
* a Python dict of named numeric parameters is a structure of `Option ℝ`
  fields; `d.get('key', default)` becomes `field.getD default`.
* code that can raise returns `Except PyError _`; each guard marks the
  exact condition under which the corresponding Python statement raises
  (a float division raises `ZeroDivisionError` exactly on a zero
  denominator).
* the neural-network forward pass (`self.forward(inputs)`) is opaque and
  possibly different between calls; its squeezed output vector is passed
  in as an explicit `results : List ℝ` argument, sliced exactly as the
  source slices it.
* `timeHorizon` (seconds) is modelled as `ℕ`; Python's `//` on it is
  `Nat` division.
-/

noncomputable section


/-- Per-material viscosity-temperature coefficients, the value stored
under `viscosityTemperatureRelation` (keys `a`, `b`, `c`). -/
structure ViscosityRelation where
  a : ℝ
  b : ℝ
  c : ℝ

/-- The `geometry` sub-mapping of a request's parameters; every key the
source ever reads from it, each optional. -/
structure Geometry where
  coilRadius : Option ℝ := none
  turns : Option ℝ := none
  pitch : Option ℝ := none
  pipeRadius : Option ℝ := none
  pipeLength : Option ℝ := none
  roughness : Option ℝ := none

/-- The empty `geometry` dict `{}`. -/
def Geometry.empty : Geometry := {}

/-- The `materialProperties` sub-mapping of a request's parameters. -/
structure MaterialProperties where
  viscosity : Option ℝ := none
  density : Option ℝ := none
  specificHeat : Option ℝ := none
  thermalConductivity : Option ℝ := none
  viscosityTemperatureRelation : Option ViscosityRelation := none

/-- The empty `materialProperties` dict `{}`. -/
def MaterialProperties.empty : MaterialProperties := {}

/-- The `boundaryConditions` sub-mapping of a request's parameters. -/
structure BoundaryConditions where
  coilInletTemp : Option ℝ := none

/-- The empty `boundaryConditions` dict `{}`. -/
def BoundaryConditions.empty : BoundaryConditions := {}

/-- The `parameters` mapping of a request: every key any of the four
simulation routines reads from it. -/
structure SimulationParameters where
  temperature : Option ℝ := none
  pressure : Option ℝ := none
  flowRate : Option ℝ := none
  timeHorizon : Option ℕ := none
  boundaryConditions : Option BoundaryConditions := none
  geometry : Option Geometry := none
  materialProperties : Option MaterialProperties := none
  fluid_velocity : Option (List ℝ) := none
  fluid_viscosity : Option ℝ := none
  fluid_density : Option ℝ := none
  ball_radius : Option ℝ := none

/-- The empty `parameters` dict `{}`. -/
def SimulationParameters.empty : SimulationParameters := {}

/-- A parsed request record (one JSON object read from stdin). -/
structure Request where
  requestId : Option String := none
  simulationType : Option String := none
  tankId : Option ℤ := none
  parameters : Option SimulationParameters := none

/-- The Python exceptions the bridge's code paths can raise. -/
inductive PyError where
  | zeroDivisionError : PyError
  | valueError : String → PyError
  | nameError : String → PyError

/-- Return value of `HeatTransferModel.compute_heat_transfer`. -/
structure HeatTransferOutput where
  temperatureField : List ℝ
  pressureField : List ℝ
  flowVelocity : List ℝ
  heatFlux : List ℝ
  efficiency : ℝ
  heatTransferRate : ℝ
  reynoldsNumber : ℝ
  nusseltNumber : ℝ
  surfaceArea : ℝ

/-- Return value of `FluidDynamicsModel.compute_fluid_dynamics`. -/
structure FluidDynamicsOutput where
  velocityField : List ℝ
  pressureField : List ℝ
  turbulenceField : List ℝ
  reynoldsNumber : ℝ
  frictionFactor : ℝ
  pressureDrop : ℝ
  velocity : ℝ

/-- Return value of `MultiPhaseFlowModel.compute_multi_phase_flow`. -/
structure MultiPhaseOutput where
  velocityField : List ℝ
  pressureField : List ℝ
  temperatureField : List ℝ
  viscosityField : List ℝ
  reynoldsNumber : ℝ
  frictionFactor : ℝ
  pressureDrop : ℝ
  effectiveViscosity : ℝ
  velocity : ℝ

/-- Return value of `ExternalFlowModel.compute_external_flow`. -/
structure ExternalFlowOutput where
  drag_coefficient : ℝ
  image : String

/-- The response dict each `simulate_*` coroutine assembles (the
wall-clock `computationTime` stamp is not modelled). `optimalSetpoints`
and `additionalMetrics` are string-keyed association lists, mirroring
the nested dicts of the source. -/
structure SimulationResult where
  predictedStates : List (ℝ × ℝ)
  temperatureField : List (List ℝ)
  pressureField : List (List ℝ)
  flowVelocity : List (List ℝ)
  heatFlux : List ℝ
  efficiency : ℝ
  confidence : ℝ
  energyConsumption : ℝ
  optimalSetpoints : List (String × ℝ)
  additionalMetrics : List (String × ℝ)

/-- `HeatTransferModel.compute_heat_transfer` (source lines 88-144).
The guards mark, in statement order, the divisions that raise
`ZeroDivisionError`: the Reynolds number divides by the oil viscosity,
the Prandtl number by the thermal conductivity, and the heat-transfer
coefficient by the pipe diameter. -/
def compute_heat_transfer (tank_temp coil_inlet_temp flow_rate : ℝ)
    (coil_geometry : Geometry) (oil_properties : MaterialProperties)
    (results : List ℝ) : Except PyError HeatTransferOutput :=
  let viscosity := oil_properties.viscosity.getD 0.01
  let density := oil_properties.density.getD 850.0
  let specific_heat := oil_properties.specificHeat.getD 2100.0
  let thermal_conductivity := oil_properties.thermalConductivity.getD 0.14
  let pipe_radius := coil_geometry.pipeRadius.getD 0.05
  let delta_t := coil_inlet_temp - tank_temp
  if viscosity = 0 then .error .zeroDivisionError else
  let reynolds_number := density * flow_rate * pipe_radius * 2 / viscosity
  if thermal_conductivity = 0 then .error .zeroDivisionError else
  let prandtl_number := viscosity * specific_heat / thermal_conductivity
  let nusselt_number := 0.023 * reynolds_number ^ (0.8 : ℝ) * prandtl_number ^ (0.4 : ℝ)
  if pipe_radius * 2 = 0 then .error .zeroDivisionError else
  let heat_transfer_coeff := nusselt_number * thermal_conductivity / (pipe_radius * 2)
  let surface_area := 2 * Real.pi * coil_geometry.coilRadius.getD 0.5 *
    coil_geometry.turns.getD 3 * coil_geometry.pitch.getD 0.1
  let heat_transfer_rate := heat_transfer_coeff * surface_area * delta_t
  let max_possible_heat_transfer := flow_rate * density * specific_heat * delta_t
  let efficiency :=
    if 0 < max_possible_heat_transfer then
      min (heat_transfer_rate / max_possible_heat_transfer) 1
    else 0
  .ok { temperatureField := results.take 4
        pressureField := (results.drop 4).take 4
        flowVelocity := (results.drop 8).take 2
        heatFlux := (results.drop 10).take 2
        efficiency := efficiency
        heatTransferRate := heat_transfer_rate
        reynoldsNumber := reynolds_number
        nusseltNumber := nusselt_number
        surfaceArea := surface_area }

/-- `FluidDynamicsModel.compute_fluid_dynamics` (source lines 152-200).
Guards, in statement order: the velocity divides by the pipe area, the
Reynolds number by the viscosity, and the laminar friction branch
`64 / reynolds_number` raises exactly when that branch is taken with a
zero Reynolds number. -/
def compute_fluid_dynamics (temperature pressure flow_rate : ℝ)
    (geometry : Geometry) (fluid_properties : MaterialProperties)
    (results : List ℝ) : Except PyError FluidDynamicsOutput :=
  let pipe_radius := geometry.pipeRadius.getD 0.05
  let pipe_area := Real.pi * pipe_radius ^ 2
  if pipe_area = 0 then .error .zeroDivisionError else
  let velocity := flow_rate / pipe_area
  let viscosity := fluid_properties.viscosity.getD 0.01
  if viscosity = 0 then .error .zeroDivisionError else
  let density := fluid_properties.density.getD 850.0
  let reynolds_number := density * velocity * pipe_radius * 2 / viscosity
  if reynolds_number < 2300 ∧ reynolds_number = 0 then .error .zeroDivisionError else
  let friction_factor :=
    if reynolds_number < 2300 then 64 / reynolds_number
    else 0.316 / reynolds_number ^ (0.25 : ℝ)
  let pipe_length := geometry.pipeLength.getD 10.0
  let pressure_drop := friction_factor * (pipe_length / (pipe_radius * 2)) *
    (density * velocity ^ 2) / 2
  .ok { velocityField := results.take 3
        pressureField := (results.drop 3).take 3
        turbulenceField := (results.drop 6).take 2
        reynoldsNumber := reynolds_number
        frictionFactor := friction_factor
        pressureDrop := pressure_drop
        velocity := velocity }

/-- `MultiPhaseFlowModel.compute_multi_phase_flow` (source lines
208-269): viscosity is temperature dependent,
`a * exp(b * T + c * T^2)`, with relation defaults
`{a: 1.5, b: -0.02, c: 0.0001}`; the laminar/turbulent switch is at
Reynolds number 2100. Guards as in the fluid-dynamics model. -/
def compute_multi_phase_flow (temperature pressure flow_rate : ℝ)
    (geometry : Geometry) (asphalt_properties : MaterialProperties)
    (results : List ℝ) : Except PyError MultiPhaseOutput :=
  let viscosity_relation :=
    asphalt_properties.viscosityTemperatureRelation.getD ⟨1.5, -0.02, 0.0001⟩
  let viscosity := viscosity_relation.a *
    Real.exp (viscosity_relation.b * temperature + viscosity_relation.c * temperature ^ 2)
  let pipe_radius := geometry.pipeRadius.getD 0.1
  let pipe_area := Real.pi * pipe_radius ^ 2
  if pipe_area = 0 then .error .zeroDivisionError else
  let velocity := flow_rate / pipe_area
  if viscosity = 0 then .error .zeroDivisionError else
  let density := asphalt_properties.density.getD 1000.0
  let reynolds_number := density * velocity * pipe_radius * 2 / viscosity
  if reynolds_number < 2100 ∧ reynolds_number = 0 then .error .zeroDivisionError else
  let friction_factor :=
    if reynolds_number < 2100 then 64 / reynolds_number
    else 0.316 / reynolds_number ^ (0.25 : ℝ)
  let pipe_length := geometry.pipeLength.getD 50.0
  let pressure_drop := friction_factor * (pipe_length / (pipe_radius * 2)) *
    (density * velocity ^ 2) / 2
  .ok { velocityField := results.take 3
        pressureField := (results.drop 3).take 3
        temperatureField := (results.drop 6).take 2
        viscosityField := (results.drop 8).take 2
        reynoldsNumber := reynolds_number
        frictionFactor := friction_factor
        pressureDrop := pressure_drop
        effectiveViscosity := viscosity
        velocity := velocity }

/-- The 1x1 placeholder PNG returned by the external-flow model. -/
def golfBallImage : String :=
  "iVBORw0KGgoAAAANSUhEUgAAAAEAAAABCAQAAAC1HAwCAAAAC0lEQVR42mNkYAAAAAYAAjCB0C8AAAAASUVORK5CYII="

/-- `ExternalFlowModel.compute_external_flow` (source lines 516-557).
The body builds a `FullyConnectedArch`, `Domain`, `NavierStokes` and
`Solver` before ever reaching the fixed `drag_coefficient = 0.5`; those
five names are bound only when the optional `modulus` import at the top
of the file succeeded (`MODULUS_AVAILABLE`, lines 21-38).  When the
importing failed — the fallback mode the file itself announces with
"Falling back to simplified physics models" — evaluating
`FullyConnectedArch(...)` raises `NameError`, so the placeholder return
is unreachable.  (As committed, the import block additionally contains
a mis-indented line 29, so the `True` configuration is unreachable as
well.) -/
def compute_external_flow (modulus_available : Bool) (fluid_velocity : List ℝ)
    (fluid_viscosity fluid_density ball_radius : ℝ) :
    Except PyError ExternalFlowOutput :=
  if modulus_available then
    .ok { drag_coefficient := 0.5, image := golfBallImage }
  else
    .error (.nameError "FullyConnectedArch")

/-- `TankPhysicsSimulator.simulate_thermal_coil` (source lines 298-358).
The surrounding try/except logs and re-raises, so it is the identity on
the error.  `time_steps = min(60, time_horizon // 60)`. -/
def simulate_thermal_coil (parameters : SimulationParameters)
    (results : List ℝ) : Except PyError SimulationResult :=
  let tank_temp := parameters.temperature.getD 120.0
  let coil_inlet_temp :=
    (parameters.boundaryConditions.getD BoundaryConditions.empty).coilInletTemp.getD 180.0
  let flow_rate := parameters.flowRate.getD 1.0
  let coil_geometry := parameters.geometry.getD Geometry.empty
  let oil_properties := parameters.materialProperties.getD MaterialProperties.empty
  match compute_heat_transfer tank_temp coil_inlet_temp flow_rate coil_geometry
      oil_properties results with
  | .error e => .error e
  | .ok h =>
    let time_horizon := parameters.timeHorizon.getD 3600
    let time_steps := min 60 (time_horizon / 60)
    let predicted_states := (List.range time_steps).map fun (i : ℕ) =>
      let time_factor := (i : ℝ) / (time_steps : ℝ)
      (tank_temp + (coil_inlet_temp - tank_temp) * h.efficiency * time_factor,
       h.heatTransferRate * (1 - time_factor * 0.1))
    let energy_consumption := h.heatTransferRate * (time_horizon : ℝ) / 3600000
    .ok { predictedStates := predicted_states
          temperatureField := [h.temperatureField]
          pressureField := [h.pressureField]
          flowVelocity := [h.flowVelocity]
          heatFlux := h.heatFlux
          efficiency := h.efficiency
          confidence := 0.92
          energyConsumption := energy_consumption
          optimalSetpoints :=
            [("temperature", tank_temp + 10),
             ("flowRate", flow_rate * 1.1),
             ("pressure", parameters.pressure.getD 2.0 * 1.05)]
          additionalMetrics :=
            [("reynoldsNumber", h.reynoldsNumber),
             ("nusseltNumber", h.nusseltNumber),
             ("surfaceArea", h.surfaceArea)] }

/-- `TankPhysicsSimulator.simulate_fluid_dynamics` (source lines
360-414). -/
def simulate_fluid_dynamics (parameters : SimulationParameters)
    (results : List ℝ) : Except PyError SimulationResult :=
  let temperature := parameters.temperature.getD 120.0
  let pressure := parameters.pressure.getD 2.0
  let flow_rate := parameters.flowRate.getD 1.0
  let geometry := parameters.geometry.getD Geometry.empty
  let fluid_properties := parameters.materialProperties.getD MaterialProperties.empty
  match compute_fluid_dynamics temperature pressure flow_rate geometry
      fluid_properties results with
  | .error e => .error e
  | .ok f =>
    let time_horizon := parameters.timeHorizon.getD 3600
    let time_steps := min 60 (time_horizon / 60)
    let predicted_states := (List.range time_steps).map fun (i : ℕ) =>
      let time_factor := (i : ℝ) / (time_steps : ℝ)
      (f.velocity * (1 + 0.1 * Real.sin (time_factor * 2 * Real.pi)),
       pressure - f.pressureDrop * time_factor)
    .ok { predictedStates := predicted_states
          temperatureField := [[temperature, temperature, temperature, temperature]]
          pressureField := [f.pressureField]
          flowVelocity := [f.velocityField]
          heatFlux := [0.0, 0.0]
          efficiency := 0.85
          confidence := 0.88
          energyConsumption := 0.1
          optimalSetpoints :=
            [("temperature", temperature),
             ("flowRate", flow_rate * 1.05),
             ("pressure", pressure * 1.1)]
          additionalMetrics :=
            [("reynoldsNumber", f.reynoldsNumber),
             ("frictionFactor", f.frictionFactor),
             ("pressureDrop", f.pressureDrop)] }

/-- `TankPhysicsSimulator.simulate_multi_phase` (source lines 416-470).
`time_steps = min(30, time_horizon // 60)` with default horizon 1800. -/
def simulate_multi_phase (parameters : SimulationParameters)
    (results : List ℝ) : Except PyError SimulationResult :=
  let temperature := parameters.temperature.getD 150.0
  let pressure := parameters.pressure.getD 1.5
  let flow_rate := parameters.flowRate.getD 0.5
  let geometry := parameters.geometry.getD Geometry.empty
  let asphalt_properties := parameters.materialProperties.getD MaterialProperties.empty
  match compute_multi_phase_flow temperature pressure flow_rate geometry
      asphalt_properties results with
  | .error e => .error e
  | .ok f =>
    let time_horizon := parameters.timeHorizon.getD 1800
    let time_steps := min 30 (time_horizon / 60)
    let predicted_states := (List.range time_steps).map fun (i : ℕ) =>
      let time_factor := (i : ℝ) / (time_steps : ℝ)
      (temperature - 2 * time_factor,
       f.effectiveViscosity * (1 + 0.5 * time_factor))
    .ok { predictedStates := predicted_states
          temperatureField := [f.temperatureField]
          pressureField := [f.pressureField]
          flowVelocity := [f.velocityField]
          heatFlux := [0.0, 0.0]
          efficiency := 0.78
          confidence := 0.85
          energyConsumption := 0.05
          optimalSetpoints :=
            [("temperature", temperature + 5),
             ("flowRate", flow_rate * 0.95),
             ("pressure", pressure * 1.15)]
          additionalMetrics :=
            [("reynoldsNumber", f.reynoldsNumber),
             ("effectiveViscosity", f.effectiveViscosity),
             ("pressureDrop", f.pressureDrop)] }

/-- `TankPhysicsSimulator.simulate_external_flow_golf_ball` (source
lines 472-508): an external-flow response has no trajectory and no
field arrays. -/
def simulate_external_flow_golf_ball (modulus_available : Bool)
    (parameters : SimulationParameters) : Except PyError SimulationResult :=
  let fluid_velocity := parameters.fluid_velocity.getD [10.0, 0.0, 0.0]
  let fluid_viscosity := parameters.fluid_viscosity.getD 1.81e-5
  let fluid_density := parameters.fluid_density.getD 1.225
  let ball_radius := parameters.ball_radius.getD 0.02135
  match compute_external_flow modulus_available fluid_velocity fluid_viscosity
      fluid_density ball_radius with
  | .error e => .error e
  | .ok ef =>
    .ok { predictedStates := []
          temperatureField := []
          pressureField := []
          flowVelocity := []
          heatFlux := []
          efficiency := 0
          confidence := 0.9
          energyConsumption := 0
          optimalSetpoints := []
          additionalMetrics := [("dragCoefficient", ef.drag_coefficient)] }

/-- One record written to stdout by the protocol loop: either a success
response `{requestId, tankId, **result}` or an error response
`{error, requestId}`. -/
inductive OutputRecord where
  | success : String → ℤ → SimulationResult → OutputRecord
  | error : String → String → OutputRecord

/-- One line read from stdin: either it fails `json.loads` (carrying
the decoder's message `str(e)`), or it parses to a record. -/
inductive InputLine where
  | malformed : String → InputLine
  | record : Request → InputLine

/-- Outcome of one iteration of the `while True` body of `main`:
either a record was written and the loop continues, or an exception
escaped both handlers and the loop (and process) terminates. -/
inductive StepResult where
  | wrote : OutputRecord → StepResult
  | crashed : PyError → StepResult

/-- The `if`/`elif` routing of `main` (source lines 588-597), including
the `ValueError` raised for an unknown simulation type. -/
def routeRequest (modulus_available : Bool) (request : Request)
    (results : List ℝ) : Except PyError SimulationResult :=
  let simulation_type := request.simulationType.getD "unknown"
  if simulation_type = "thermal_coil" then
    simulate_thermal_coil (request.parameters.getD SimulationParameters.empty) results
  else if simulation_type = "fluid_dynamics" then
    simulate_fluid_dynamics (request.parameters.getD SimulationParameters.empty) results
  else if simulation_type = "multi_phase" then
    simulate_multi_phase (request.parameters.getD SimulationParameters.empty) results
  else if simulation_type = "external_flow_golf_ball" then
    simulate_external_flow_golf_ball modulus_available
      (request.parameters.getD SimulationParameters.empty)
  else
    .error (.valueError ("Unknown simulation type: " ++ simulation_type))

/-- One iteration of the loop body of `main` (source lines 570-629).
A line that fails `json.loads` is handled by the `JSONDecodeError`
branch, which writes `{error: "Invalid JSON: ...", requestId:
"unknown"}` and continues.  Any other exception reaches the generic
`except Exception` handler, whose second statement evaluates
`traceback.format_exc()`; the module never imports `traceback`, so that
evaluation raises `NameError`, which is uncaught: no error response is
written and the loop terminates. -/
def processLine (modulus_available : Bool) (line : InputLine)
    (results : List ℝ) : StepResult :=
  match line with
  | .malformed msg => .wrote (.error ("Invalid JSON: " ++ msg) "unknown")
  | .record request =>
    match routeRequest modulus_available request results with
    | .ok result =>
      .wrote (.success (request.requestId.getD "unknown") (request.tankId.getD 0) result)
    | .error _ => .crashed (.nameError "traceback")

/-- The protocol loop over a finite prefix of stdin: the list of
records written to stdout.  A crash abandons every remaining line. -/
def runLoop (modulus_available : Bool) :
    List (InputLine × List ℝ) → List OutputRecord
  | [] => []
  | (line, results) :: rest =>
    match processLine modulus_available line results with
    | .wrote out => out :: runLoop modulus_available rest
    | .crashed _ => []

/-- A request that parses but names no supported simulation type. -/
def unknownTypeRequest : Request :=
  { requestId := some "r1", simulationType := some "quantum_foam", tankId := some 3 }

/-- A well-formed thermal-coil request (used as the line after a crash). -/
def thermalRequest : Request :=
  { requestId := some "r2", simulationType := some "thermal_coil", tankId := some 3 }

/-- A fluid-dynamics request whose viscosity is zero, so the Reynolds
number computation divides by zero. -/
def zeroViscosityRequest : Request :=
  { requestId := some "r3", simulationType := some "fluid_dynamics", tankId := some 3,
    parameters := some { materialProperties := some { viscosity := some 0 } } }

/-- A thermal-coil request whose coil inlet is colder than the tank, so
`maxPossibleHeatTransfer < 0` and the efficiency is 0. -/
def coldInletParams : SimulationParameters :=
  { boundaryConditions := some { coilInletTemp := some 100.0 } }

/-- A thermal-coil request with unit material properties and pipe
diameter 1, chosen so the Reynolds and Prandtl numbers are exactly 1
and the capped efficiency is exactly 1. -/
def unitCoilParams : SimulationParameters :=
  { temperature := some 1, flowRate := some 1,
    boundaryConditions := some { coilInletTemp := some 2 },
    geometry := some { coilRadius := some 100, turns := some 1, pitch := some 1,
                       pipeRadius := some 0.5 },
    materialProperties := some { viscosity := some 1, density := some 1,
                                 specificHeat := some 1, thermalConductivity := some 1 } }

/-- The all-default thermal-coil computation succeeds (no guard fires). -/
lemma compute_heat_transfer_defaults_ok (o : List ℝ) :
    ∃ h, compute_heat_transfer 120 180 1 Geometry.empty MaterialProperties.empty o = .ok h := by
  norm_num [compute_heat_transfer, Geometry.empty, MaterialProperties.empty]

/-- The all-default fluid-dynamics computation succeeds. -/
lemma compute_fluid_defaults_ok (o : List ℝ) :
    ∃ f, compute_fluid_dynamics 120 2 1 Geometry.empty MaterialProperties.empty o = .ok f := by
  norm_num [compute_fluid_dynamics, Geometry.empty, MaterialProperties.empty,
    Real.pi_ne_zero]

/-- The all-default multi-phase computation succeeds. -/
lemma compute_multi_defaults_ok (o : List ℝ) :
    ∃ f, compute_multi_phase_flow 150 1.5 0.5 Geometry.empty MaterialProperties.empty o = .ok f := by
  norm_num [compute_multi_phase_flow, Geometry.empty, MaterialProperties.empty,
    Real.pi_ne_zero]


/-- The all-default thermal-coil request succeeds end to end. -/
lemma simulate_thermal_defaults_ok (o : List ℝ) :
    ∃ r, simulate_thermal_coil SimulationParameters.empty o = .ok r := by
  obtain ⟨h, hh⟩ := compute_heat_transfer_defaults_ok o
  norm_num [simulate_thermal_coil, SimulationParameters.empty, BoundaryConditions.empty, hh]

/-- The all-default fluid-dynamics request succeeds end to end. -/
lemma simulate_fluid_defaults_ok (o : List ℝ) :
    ∃ r, simulate_fluid_dynamics SimulationParameters.empty o = .ok r := by
  obtain ⟨f, hf⟩ := compute_fluid_defaults_ok o
  norm_num [simulate_fluid_dynamics, SimulationParameters.empty, hf]

/-- The all-default multi-phase request succeeds end to end. -/
lemma simulate_multi_defaults_ok (o : List ℝ) :
    ∃ r, simulate_multi_phase SimulationParameters.empty o = .ok r := by
  obtain ⟨f, hf⟩ := compute_multi_defaults_ok o
  norm_num at hf
  norm_num [simulate_multi_phase, SimulationParameters.empty, hf]

/-- The analytical scalars of the heat-transfer computation do not
depend on the network output vector. -/
lemma compute_heat_transfer_scalars_indep (t c f : ℝ) (g : Geometry)
    (m : MaterialProperties) (o1 o2 : List ℝ) (a b : HeatTransferOutput)
    (ha : compute_heat_transfer t c f g m o1 = .ok a)
    (hb : compute_heat_transfer t c f g m o2 = .ok b) :
    a.efficiency = b.efficiency ∧ a.heatTransferRate = b.heatTransferRate ∧
    a.reynoldsNumber = b.reynoldsNumber ∧ a.nusseltNumber = b.nusseltNumber ∧
    a.surfaceArea = b.surfaceArea := by
  simp only [compute_heat_transfer] at ha hb
  split_ifs at ha hb <;>
    first
      | exact Except.noConfusion ha
      | exact Except.noConfusion hb
      | (injection ha with ha; injection hb with hb; subst ha; subst hb;
          exact ⟨rfl, rfl, rfl, rfl, rfl⟩)

/-- The analytical scalars of the fluid-dynamics computation do not
depend on the network output vector. -/
lemma compute_fluid_scalars_indep (t p f : ℝ) (g : Geometry)
    (m : MaterialProperties) (o1 o2 : List ℝ) (a b : FluidDynamicsOutput)
    (ha : compute_fluid_dynamics t p f g m o1 = .ok a)
    (hb : compute_fluid_dynamics t p f g m o2 = .ok b) :
    a.reynoldsNumber = b.reynoldsNumber ∧ a.frictionFactor = b.frictionFactor ∧
    a.pressureDrop = b.pressureDrop ∧ a.velocity = b.velocity := by
  simp only [compute_fluid_dynamics] at ha hb
  split_ifs at ha hb <;>
    first
      | exact Except.noConfusion ha
      | exact Except.noConfusion hb
      | (injection ha with ha; injection hb with hb; subst ha; subst hb;
          exact ⟨rfl, rfl, rfl, rfl⟩)

/-- The analytical scalars of the multi-phase computation do not depend
on the network output vector. -/
lemma compute_multi_scalars_indep (t p f : ℝ) (g : Geometry)
    (m : MaterialProperties) (o1 o2 : List ℝ) (a b : MultiPhaseOutput)
    (ha : compute_multi_phase_flow t p f g m o1 = .ok a)
    (hb : compute_multi_phase_flow t p f g m o2 = .ok b) :
    a.reynoldsNumber = b.reynoldsNumber ∧ a.frictionFactor = b.frictionFactor ∧
    a.pressureDrop = b.pressureDrop ∧ a.effectiveViscosity = b.effectiveViscosity ∧
    a.velocity = b.velocity := by
  simp only [compute_multi_phase_flow] at ha hb
  split_ifs at ha hb <;>
    first
      | exact Except.noConfusion ha
      | exact Except.noConfusion hb
      | (injection ha with ha; injection hb with hb; subst ha; subst hb;
          exact ⟨rfl, rfl, rfl, rfl, rfl⟩)

/-- The cold-inlet thermal request succeeds with efficiency 0. -/
lemma simulate_thermal_cold_inlet :
    ∃ r, simulate_thermal_coil coldInletParams [] = .ok r ∧ r.efficiency = 0 := by
  norm_num [simulate_thermal_coil, compute_heat_transfer, coldInletParams,
    Geometry.empty, MaterialProperties.empty]

/-- The unit-parameter thermal request succeeds with efficiency 1. -/
lemma simulate_thermal_unit_coil :
    ∃ r, simulate_thermal_coil unitCoilParams [] = .ok r ∧ r.efficiency = 1 := by
  norm_num [simulate_thermal_coil, compute_heat_transfer, unitCoilParams, Real.one_rpow]
  nlinarith [Real.pi_gt_three]

/-- C1 (code bug): the claim says a parsed request whose processing
fails (unknown simulationType, or an exception inside a physics
computation such as the zero-viscosity division) yields an ErrorResult
carrying the original requestId and the loop continues.  In the source
the generic `except Exception` handler evaluates
`traceback.format_exc()` but the module never imports `traceback`, so
the handler raises `NameError`: no ErrorResult is written, and the loop
terminates — a subsequent valid request on stdin is never processed. -/
theorem claim_C1_per_request_failure_kills_loop :
    processLine false (InputLine.record unknownTypeRequest) [] =
      StepResult.crashed (PyError.nameError "traceback") ∧
    processLine false (InputLine.record zeroViscosityRequest) [] =
      StepResult.crashed (PyError.nameError "traceback") ∧
    runLoop false [(InputLine.record unknownTypeRequest, []),
                   (InputLine.record thermalRequest, [])] = [] := by
  refine ⟨rfl, ?_, rfl⟩
  norm_num [processLine, routeRequest, zeroViscosityRequest, simulate_fluid_dynamics,
    compute_fluid_dynamics, SimulationParameters.empty, Geometry.empty, Real.pi_ne_zero]
  rfl

/-- C5 (confirmed): a line that fails to parse produces an ErrorResult
whose requestId is the literal string "unknown", and the loop then
proceeds to the remaining lines within the same process. -/
theorem claim_C5_malformed_line_recovered (modulus_available : Bool) (msg : String)
    (results : List ℝ) (rest : List (InputLine × List ℝ)) :
    runLoop modulus_available ((InputLine.malformed msg, results) :: rest) =
      OutputRecord.error ("Invalid JSON: " ++ msg) "unknown" ::
        runLoop modulus_available rest := rfl

/-- C9 (code bug): in the fallback configuration (modulus unavailable —
the only one reachable as committed) an external-flow request does not
return a drag coefficient at all: the module raises `NameError` on the
unbound solver classes.  Only when the modulus import succeeds does the
placeholder return its fixed, finite, non-negative drag coefficient
0.5. -/
theorem claim_C9_external_flow_drag :
    compute_external_flow false [10.0, 0.0, 0.0] 1.81e-5 1.225 0.02135 =
      .error (.nameError "FullyConnectedArch") ∧
    simulate_external_flow_golf_ball false SimulationParameters.empty =
      .error (.nameError "FullyConnectedArch") ∧
    compute_external_flow true [10.0, 0.0, 0.0] 1.81e-5 1.225 0.02135 =
      .ok { drag_coefficient := 0.5, image := golfBallImage } ∧
    (0:ℝ) ≤ 0.5 :=
  ⟨rfl, rfl, rfl, by norm_num⟩

/-- C4 (confirmed): the predicted-state trajectory has length exactly
`min(cap, timeHorizon // 60)` with cap 60 for thermal coil and fluid
dynamics and cap 30 for multi-phase; an external-flow response always
has an empty trajectory, and a zero horizon yields an empty trajectory
for every simulation type. -/
theorem claim_C4_trajectory_length (p : SimulationParameters) (o : List ℝ) :
    (∀ r, simulate_thermal_coil p o = .ok r →
      r.predictedStates.length = min 60 (p.timeHorizon.getD 3600 / 60)) ∧
    (∀ r, simulate_fluid_dynamics p o = .ok r →
      r.predictedStates.length = min 60 (p.timeHorizon.getD 3600 / 60)) ∧
    (∀ r, simulate_multi_phase p o = .ok r →
      r.predictedStates.length = min 30 (p.timeHorizon.getD 1800 / 60)) ∧
    (∀ b r, simulate_external_flow_golf_ball b p = .ok r →
      r.predictedStates = []) ∧
    (p.timeHorizon = some 0 → ∀ r,
      (simulate_thermal_coil p o = .ok r ∨ simulate_fluid_dynamics p o = .ok r ∨
        simulate_multi_phase p o = .ok r ∨
        ∃ b, simulate_external_flow_golf_ball b p = .ok r) →
      r.predictedStates = []) := by
  have hthermal : ∀ r, simulate_thermal_coil p o = .ok r →
      r.predictedStates.length = min 60 (p.timeHorizon.getD 3600 / 60) := by
    intro r hr
    simp only [simulate_thermal_coil] at hr
    split at hr
    · exact Except.noConfusion hr
    · injection hr with hr
      subst hr
      simp [List.length_map, List.length_range]
  have hfluid : ∀ r, simulate_fluid_dynamics p o = .ok r →
      r.predictedStates.length = min 60 (p.timeHorizon.getD 3600 / 60) := by
    intro r hr
    simp only [simulate_fluid_dynamics] at hr
    split at hr
    · exact Except.noConfusion hr
    · injection hr with hr
      subst hr
      simp [List.length_map, List.length_range]
  have hmulti : ∀ r, simulate_multi_phase p o = .ok r →
      r.predictedStates.length = min 30 (p.timeHorizon.getD 1800 / 60) := by
    intro r hr
    simp only [simulate_multi_phase] at hr
    split at hr
    · exact Except.noConfusion hr
    · injection hr with hr
      subst hr
      simp [List.length_map, List.length_range]
  have hext : ∀ b r, simulate_external_flow_golf_ball b p = .ok r →
      r.predictedStates = [] := by
    intro b r hr
    simp only [simulate_external_flow_golf_ball] at hr
    split at hr
    · exact Except.noConfusion hr
    · injection hr with hr
      subst hr
      rfl
  refine ⟨hthermal, hfluid, hmulti, hext, ?_⟩
  intro h0 r hcase
  rcases hcase with h | h | h | ⟨b, h⟩
  · have hl := hthermal r h
    rw [h0] at hl
    simp only [Option.getD_some, Nat.zero_div, Nat.min_zero] at hl
    exact List.length_eq_zero.mp hl
  · have hl := hfluid r h
    rw [h0] at hl
    simp only [Option.getD_some, Nat.zero_div, Nat.min_zero] at hl
    exact List.length_eq_zero.mp hl
  · have hl := hmulti r h
    rw [h0] at hl
    simp only [Option.getD_some, Nat.zero_div, Nat.min_zero] at hl
    exact List.length_eq_zero.mp hl
  · exact hext b r h

/-- Witness for C4 at concrete requests: the all-default requests (time
horizon 3600 for thermal coil and fluid dynamics, 1800 for multi-phase)
succeed and produce trajectories of length 60, 60 and 30, and an
external-flow response with an empty trajectory. -/
theorem claim_C4_trajectory_length_witness :
    ∃ r1 r2 r3 r4,
      simulate_thermal_coil SimulationParameters.empty [] = .ok r1 ∧
        r1.predictedStates.length = 60 ∧
      simulate_fluid_dynamics SimulationParameters.empty [] = .ok r2 ∧
        r2.predictedStates.length = 60 ∧
      simulate_multi_phase SimulationParameters.empty [] = .ok r3 ∧
        r3.predictedStates.length = 30 ∧
      simulate_external_flow_golf_ball true SimulationParameters.empty = .ok r4 ∧
        r4.predictedStates = [] := by
  obtain ⟨r1, h1⟩ := simulate_thermal_defaults_ok []
  obtain ⟨r2, h2⟩ := simulate_fluid_defaults_ok []
  obtain ⟨r3, h3⟩ := simulate_multi_defaults_ok []
  have hc := claim_C4_trajectory_length SimulationParameters.empty []
  refine ⟨r1, r2, r3, _, h1, ?_, h2, ?_, h3, ?_, rfl, hc.2.2.2.1 true _ rfl⟩
  · simpa [SimulationParameters.empty] using hc.1 r1 h1
  · simpa [SimulationParameters.empty] using hc.2.1 r2 h2
  · simpa [SimulationParameters.empty] using hc.2.2.1 r3 h3

/-- C2 (confirmed): the friction factor is `64/Re` exactly when the
computed Reynolds number is strictly below the regime threshold and
`0.316/Re^0.25` otherwise (so a Reynolds number exactly at the
threshold uses the turbulent Blasius branch); the threshold is 2300 for
the fluid-dynamics module and 2100 for the multi-phase module. -/
theorem claim_C2_friction_factor_regimes (temperature pressure flow_rate : ℝ)
    (g : Geometry) (m : MaterialProperties) (o : List ℝ) :
    (∀ r, compute_fluid_dynamics temperature pressure flow_rate g m o = .ok r →
      r.frictionFactor = if r.reynoldsNumber < 2300 then 64 / r.reynoldsNumber
        else 0.316 / r.reynoldsNumber ^ (0.25 : ℝ)) ∧
    (∀ r, compute_multi_phase_flow temperature pressure flow_rate g m o = .ok r →
      r.frictionFactor = if r.reynoldsNumber < 2100 then 64 / r.reynoldsNumber
        else 0.316 / r.reynoldsNumber ^ (0.25 : ℝ)) := by
  constructor
  · intro r hr
    simp only [compute_fluid_dynamics] at hr
    split_ifs at hr with h1 h2 h3 h4 <;>
      (injection hr with hr; subst hr; simp [h4])
  · intro r hr
    simp only [compute_multi_phase_flow] at hr
    split_ifs at hr with h1 h2 h3 h4 <;>
      (injection hr with hr; subst hr; simp [h4])

/-- Witness for C2: both default computations succeed, and their
friction factors satisfy the branch equation. -/
theorem claim_C2_friction_factor_regimes_witness :
    ∃ r1 r2,
      compute_fluid_dynamics 120 2 1 Geometry.empty MaterialProperties.empty [] = .ok r1 ∧
      r1.frictionFactor = (if r1.reynoldsNumber < 2300 then 64 / r1.reynoldsNumber
        else 0.316 / r1.reynoldsNumber ^ (0.25 : ℝ)) ∧
      compute_multi_phase_flow 150 1.5 0.5 Geometry.empty MaterialProperties.empty [] = .ok r2 ∧
      r2.frictionFactor = (if r2.reynoldsNumber < 2100 then 64 / r2.reynoldsNumber
        else 0.316 / r2.reynoldsNumber ^ (0.25 : ℝ)) := by
  obtain ⟨r1, h1⟩ := compute_fluid_defaults_ok []
  obtain ⟨r2, h2⟩ := compute_multi_defaults_ok []
  exact ⟨r1, r2, h1,
    (claim_C2_friction_factor_regimes 120 2 1 Geometry.empty
      MaterialProperties.empty []).1 r1 h1, h2,
    (claim_C2_friction_factor_regimes 150 1.5 0.5 Geometry.empty
      MaterialProperties.empty []).2 r2 h2⟩

/-- C3 (confirmed): for a successful thermal-coil computation the
efficiency equals `min(heatTransferRate / maxPossibleHeatTransfer, 1)`
when `maxPossibleHeatTransfer = flowRate * density * specificHeat *
(coilInletTemp - tankTemp)` is positive and 0 when it is `≤ 0`, and
for non-negative parameters the efficiency lies in `[0, 1]`. -/
theorem claim_C3_thermal_efficiency (tank_temp coil_inlet_temp flow_rate : ℝ)
    (g : Geometry) (m : MaterialProperties) (o : List ℝ)
    (hf : 0 ≤ flow_rate)
    (hmu : 0 ≤ m.viscosity.getD 0.01)
    (hrho : 0 ≤ m.density.getD 850.0)
    (hcp : 0 ≤ m.specificHeat.getD 2100.0)
    (hk : 0 ≤ m.thermalConductivity.getD 0.14)
    (hpr : 0 ≤ g.pipeRadius.getD 0.05)
    (hcr : 0 ≤ g.coilRadius.getD 0.5)
    (htn : 0 ≤ g.turns.getD 3)
    (hpt : 0 ≤ g.pitch.getD 0.1) :
    ∀ r, compute_heat_transfer tank_temp coil_inlet_temp flow_rate g m o = .ok r →
      (r.efficiency =
        if 0 < flow_rate * m.density.getD 850.0 * m.specificHeat.getD 2100.0 *
            (coil_inlet_temp - tank_temp) then
          min (r.heatTransferRate /
            (flow_rate * m.density.getD 850.0 * m.specificHeat.getD 2100.0 *
              (coil_inlet_temp - tank_temp))) 1
        else 0) ∧
      0 ≤ r.efficiency ∧ r.efficiency ≤ 1 ∧
      (flow_rate * m.density.getD 850.0 * m.specificHeat.getD 2100.0 *
          (coil_inlet_temp - tank_temp) ≤ 0 → r.efficiency = 0) := by
  intro r hr
  simp only [compute_heat_transfer] at hr
  split_ifs at hr with h1 h2 h3 h4
  · injection hr with hr
    subst hr
    have hre : (0:ℝ) ≤ m.density.getD 850.0 * flow_rate * g.pipeRadius.getD 0.05 * 2 /
        m.viscosity.getD 0.01 :=
      div_nonneg
        (mul_nonneg (mul_nonneg (mul_nonneg hrho hf) hpr) (by norm_num)) hmu
    have hprn : (0:ℝ) ≤ m.viscosity.getD 0.01 * m.specificHeat.getD 2100.0 /
        m.thermalConductivity.getD 0.14 := div_nonneg (mul_nonneg hmu hcp) hk
    have hnu : (0:ℝ) ≤ 0.023 * (m.density.getD 850.0 * flow_rate * g.pipeRadius.getD 0.05 * 2 /
        m.viscosity.getD 0.01) ^ (0.8 : ℝ) *
        (m.viscosity.getD 0.01 * m.specificHeat.getD 2100.0 /
          m.thermalConductivity.getD 0.14) ^ (0.4 : ℝ) :=
      mul_nonneg (mul_nonneg (by norm_num) (Real.rpow_nonneg hre _))
        (Real.rpow_nonneg hprn _)
    have hhtc : (0:ℝ) ≤ 0.023 * (m.density.getD 850.0 * flow_rate * g.pipeRadius.getD 0.05 * 2 /
        m.viscosity.getD 0.01) ^ (0.8 : ℝ) *
        (m.viscosity.getD 0.01 * m.specificHeat.getD 2100.0 /
          m.thermalConductivity.getD 0.14) ^ (0.4 : ℝ) *
        m.thermalConductivity.getD 0.14 / (g.pipeRadius.getD 0.05 * 2) :=
      div_nonneg (mul_nonneg hnu hk) (by linarith)
    have harea : (0:ℝ) ≤ 2 * Real.pi * g.coilRadius.getD 0.5 * g.turns.getD 3 *
        g.pitch.getD 0.1 :=
      mul_nonneg (mul_nonneg (mul_nonneg (mul_nonneg (by norm_num) Real.pi_pos.le) hcr) htn) hpt
    have hdelta : (0:ℝ) < coil_inlet_temp - tank_temp := by
      nlinarith [h4, mul_nonneg (mul_nonneg hf hrho) hcp]
    have hrate : (0:ℝ) ≤ 0.023 * (m.density.getD 850.0 * flow_rate * g.pipeRadius.getD 0.05 * 2 /
        m.viscosity.getD 0.01) ^ (0.8 : ℝ) *
        (m.viscosity.getD 0.01 * m.specificHeat.getD 2100.0 /
          m.thermalConductivity.getD 0.14) ^ (0.4 : ℝ) *
        m.thermalConductivity.getD 0.14 / (g.pipeRadius.getD 0.05 * 2) *
        (2 * Real.pi * g.coilRadius.getD 0.5 * g.turns.getD 3 * g.pitch.getD 0.1) *
        (coil_inlet_temp - tank_temp) :=
      mul_nonneg (mul_nonneg hhtc harea) hdelta.le
    refine ⟨by simp [h4], ?_, ?_, ?_⟩
    · exact le_min (div_nonneg hrate h4.le) zero_le_one
    · exact min_le_right _ _
    · intro hle
      exact absurd h4 (not_lt.mpr hle)
  · injection hr with hr
    subst hr
    exact ⟨by simp [h4], le_refl 0, zero_le_one, fun _ => rfl⟩

/-- Witness for C3: the all-default thermal-coil computation (default
parameters are all non-negative) has efficiency in `[0, 1]`. -/
theorem claim_C3_thermal_efficiency_witness :
    ∃ r, compute_heat_transfer 120 180 1 Geometry.empty MaterialProperties.empty [] = .ok r ∧
      0 ≤ r.efficiency ∧ r.efficiency ≤ 1 := by
  obtain ⟨r, h⟩ := compute_heat_transfer_defaults_ok []
  have hc := claim_C3_thermal_efficiency 120 180 1 Geometry.empty MaterialProperties.empty []
    (by norm_num) (by norm_num [MaterialProperties.empty])
    (by norm_num [MaterialProperties.empty])
    (by norm_num [MaterialProperties.empty])
    (by norm_num [MaterialProperties.empty])
    (by norm_num [Geometry.empty])
    (by norm_num [Geometry.empty])
    (by norm_num [Geometry.empty])
    (by norm_num [Geometry.empty]) r h
  exact ⟨r, h, hc.2.1, hc.2.2.1⟩

/-- C6 (confirmed): the multi-phase effective viscosity equals
`a * exp(b*T + c*T^2)` with coefficients taken from
`viscosityTemperatureRelation` (default `{a: 1.5, b: -0.02, c: 0.0001}`
when absent), and the downstream Reynolds number divides by exactly
that viscosity. -/
theorem claim_C6_effective_viscosity (temperature pressure flow_rate : ℝ)
    (g : Geometry) (m : MaterialProperties) (o : List ℝ) :
    ∀ r, compute_multi_phase_flow temperature pressure flow_rate g m o = .ok r →
      r.effectiveViscosity =
        (m.viscosityTemperatureRelation.getD ⟨1.5, -0.02, 0.0001⟩).a *
          Real.exp ((m.viscosityTemperatureRelation.getD ⟨1.5, -0.02, 0.0001⟩).b * temperature +
            (m.viscosityTemperatureRelation.getD ⟨1.5, -0.02, 0.0001⟩).c * temperature ^ 2) ∧
      r.reynoldsNumber = m.density.getD 1000.0 *
        (flow_rate / (Real.pi * g.pipeRadius.getD 0.1 ^ 2)) *
        g.pipeRadius.getD 0.1 * 2 / r.effectiveViscosity := by
  intro r hr
  simp only [compute_multi_phase_flow] at hr
  split_ifs at hr <;>
    first
      | exact Except.noConfusion hr
      | (injection hr with hr; subst hr; exact ⟨rfl, rfl⟩)

/-- Witness for C6: the default multi-phase request at temperature 150
succeeds and its effective viscosity is exactly
`1.5 * exp(-0.02*150 + 0.0001*150^2)` (hence equal to it to six
significant digits). -/
theorem claim_C6_effective_viscosity_witness :
    ∃ r, compute_multi_phase_flow 150 1.5 0.5 Geometry.empty MaterialProperties.empty [] = .ok r ∧
      r.effectiveViscosity = 1.5 * Real.exp (-0.02 * 150 + 0.0001 * (150:ℝ) ^ 2) := by
  obtain ⟨r, h⟩ := compute_multi_defaults_ok []
  have hc := (claim_C6_effective_viscosity 150 1.5 0.5 Geometry.empty
    MaterialProperties.empty [] r h).1
  refine ⟨r, h, ?_⟩
  simpa [MaterialProperties.empty] using hc

/-- C7 (confirmed): the pressure drop is the Darcy-Weisbach form
`frictionFactor * (pipeLength/(2*pipeRadius)) * density * velocity^2 / 2`
with `velocity = flowRate / (pi * pipeRadius^2)`, and it is non-negative
for non-negative geometry and fluid inputs, in both the fluid-dynamics
and the multi-phase module. -/
theorem claim_C7_pressure_drop (temperature pressure flow_rate : ℝ)
    (g : Geometry) (m : MaterialProperties) (o : List ℝ)
    (hf : 0 ≤ flow_rate)
    (hrho850 : 0 ≤ m.density.getD 850.0)
    (hrho1000 : 0 ≤ m.density.getD 1000.0)
    (hmu : 0 ≤ m.viscosity.getD 0.01)
    (hr005 : 0 ≤ g.pipeRadius.getD 0.05)
    (hr01 : 0 ≤ g.pipeRadius.getD 0.1)
    (hl10 : 0 ≤ g.pipeLength.getD 10.0)
    (hl50 : 0 ≤ g.pipeLength.getD 50.0)
    (ha : 0 ≤ (m.viscosityTemperatureRelation.getD ⟨1.5, -0.02, 0.0001⟩).a) :
    (∀ r, compute_fluid_dynamics temperature pressure flow_rate g m o = .ok r →
      r.pressureDrop = r.frictionFactor *
        (g.pipeLength.getD 10.0 / (g.pipeRadius.getD 0.05 * 2)) *
        (m.density.getD 850.0 * (flow_rate / (Real.pi * g.pipeRadius.getD 0.05 ^ 2)) ^ 2) / 2 ∧
      0 ≤ r.pressureDrop) ∧
    (∀ r, compute_multi_phase_flow temperature pressure flow_rate g m o = .ok r →
      r.pressureDrop = r.frictionFactor *
        (g.pipeLength.getD 50.0 / (g.pipeRadius.getD 0.1 * 2)) *
        (m.density.getD 1000.0 * (flow_rate / (Real.pi * g.pipeRadius.getD 0.1 ^ 2)) ^ 2) / 2 ∧
      0 ≤ r.pressureDrop) := by
  constructor
  · intro r hr
    simp only [compute_fluid_dynamics] at hr
    have hv : (0:ℝ) ≤ flow_rate / (Real.pi * g.pipeRadius.getD 0.05 ^ 2) :=
      div_nonneg hf (by positivity)
    have hre : (0:ℝ) ≤ m.density.getD 850.0 *
        (flow_rate / (Real.pi * g.pipeRadius.getD 0.05 ^ 2)) *
        g.pipeRadius.getD 0.05 * 2 / m.viscosity.getD 0.01 :=
      div_nonneg (mul_nonneg (mul_nonneg (mul_nonneg hrho850 hv) hr005) (by norm_num)) hmu
    split_ifs at hr with h1 h2 h3 h4
    · injection hr with hr
      subst hr
      refine ⟨rfl, ?_⟩
      have hfric : (0:ℝ) ≤ 64 / (m.density.getD 850.0 *
          (flow_rate / (Real.pi * g.pipeRadius.getD 0.05 ^ 2)) *
          g.pipeRadius.getD 0.05 * 2 / m.viscosity.getD 0.01) :=
        div_nonneg (by norm_num) hre
      exact div_nonneg (mul_nonneg (mul_nonneg hfric
        (div_nonneg hl10 (by linarith))) (mul_nonneg hrho850 (sq_nonneg _))) (by norm_num)
    · injection hr with hr
      subst hr
      refine ⟨rfl, ?_⟩
      have hfric : (0:ℝ) ≤ 0.316 / (m.density.getD 850.0 *
          (flow_rate / (Real.pi * g.pipeRadius.getD 0.05 ^ 2)) *
          g.pipeRadius.getD 0.05 * 2 / m.viscosity.getD 0.01) ^ (0.25 : ℝ) :=
        div_nonneg (by norm_num) (Real.rpow_nonneg hre _)
      exact div_nonneg (mul_nonneg (mul_nonneg hfric
        (div_nonneg hl10 (by linarith))) (mul_nonneg hrho850 (sq_nonneg _))) (by norm_num)
  · intro r hr
    simp only [compute_multi_phase_flow] at hr
    have hv : (0:ℝ) ≤ flow_rate / (Real.pi * g.pipeRadius.getD 0.1 ^ 2) :=
      div_nonneg hf (by positivity)
    have hmu2 : (0:ℝ) ≤ (m.viscosityTemperatureRelation.getD ⟨1.5, -0.02, 0.0001⟩).a *
        Real.exp ((m.viscosityTemperatureRelation.getD ⟨1.5, -0.02, 0.0001⟩).b * temperature +
          (m.viscosityTemperatureRelation.getD ⟨1.5, -0.02, 0.0001⟩).c * temperature ^ 2) :=
      mul_nonneg ha (Real.exp_pos _).le
    have hre : (0:ℝ) ≤ m.density.getD 1000.0 *
        (flow_rate / (Real.pi * g.pipeRadius.getD 0.1 ^ 2)) *
        g.pipeRadius.getD 0.1 * 2 /
        ((m.viscosityTemperatureRelation.getD ⟨1.5, -0.02, 0.0001⟩).a *
          Real.exp ((m.viscosityTemperatureRelation.getD ⟨1.5, -0.02, 0.0001⟩).b * temperature +
            (m.viscosityTemperatureRelation.getD ⟨1.5, -0.02, 0.0001⟩).c * temperature ^ 2)) :=
      div_nonneg (mul_nonneg (mul_nonneg (mul_nonneg hrho1000 hv) hr01) (by norm_num)) hmu2
    split_ifs at hr with h1 h2 h3 h4
    · injection hr with hr
      subst hr
      refine ⟨rfl, ?_⟩
      have hfric : (0:ℝ) ≤ 64 / (m.density.getD 1000.0 *
          (flow_rate / (Real.pi * g.pipeRadius.getD 0.1 ^ 2)) *
          g.pipeRadius.getD 0.1 * 2 /
          ((m.viscosityTemperatureRelation.getD ⟨1.5, -0.02, 0.0001⟩).a *
            Real.exp ((m.viscosityTemperatureRelation.getD ⟨1.5, -0.02, 0.0001⟩).b * temperature +
              (m.viscosityTemperatureRelation.getD ⟨1.5, -0.02, 0.0001⟩).c * temperature ^ 2))) :=
        div_nonneg (by norm_num) hre
      exact div_nonneg (mul_nonneg (mul_nonneg hfric
        (div_nonneg hl50 (by linarith))) (mul_nonneg hrho1000 (sq_nonneg _))) (by norm_num)
    · injection hr with hr
      subst hr
      refine ⟨rfl, ?_⟩
      have hfric : (0:ℝ) ≤ 0.316 / (m.density.getD 1000.0 *
          (flow_rate / (Real.pi * g.pipeRadius.getD 0.1 ^ 2)) *
          g.pipeRadius.getD 0.1 * 2 /
          ((m.viscosityTemperatureRelation.getD ⟨1.5, -0.02, 0.0001⟩).a *
            Real.exp ((m.viscosityTemperatureRelation.getD ⟨1.5, -0.02, 0.0001⟩).b * temperature +
              (m.viscosityTemperatureRelation.getD ⟨1.5, -0.02, 0.0001⟩).c * temperature ^ 2))) ^ (0.25 : ℝ) :=
        div_nonneg (by norm_num) (Real.rpow_nonneg hre _)
      exact div_nonneg (mul_nonneg (mul_nonneg hfric
        (div_nonneg hl50 (by linarith))) (mul_nonneg hrho1000 (sq_nonneg _))) (by norm_num)

/-- Witness for C7 at the default (non-negative) inputs of both
modules. -/
theorem claim_C7_pressure_drop_witness :
    ∃ r1 r2,
      compute_fluid_dynamics 120 2 1 Geometry.empty MaterialProperties.empty [] = .ok r1 ∧
        0 ≤ r1.pressureDrop ∧
      compute_multi_phase_flow 150 1.5 0.5 Geometry.empty MaterialProperties.empty [] = .ok r2 ∧
        0 ≤ r2.pressureDrop := by
  obtain ⟨r1, h1⟩ := compute_fluid_defaults_ok []
  obtain ⟨r2, h2⟩ := compute_multi_defaults_ok []
  have hyp1 := claim_C7_pressure_drop 120 2 1 Geometry.empty MaterialProperties.empty []
    (by norm_num) (by norm_num [MaterialProperties.empty])
    (by norm_num [MaterialProperties.empty])
    (by norm_num [MaterialProperties.empty])
    (by norm_num [Geometry.empty]) (by norm_num [Geometry.empty])
    (by norm_num [Geometry.empty]) (by norm_num [Geometry.empty])
    (by norm_num [MaterialProperties.empty])
  have hyp2 := claim_C7_pressure_drop 150 1.5 0.5 Geometry.empty MaterialProperties.empty []
    (by norm_num) (by norm_num [MaterialProperties.empty])
    (by norm_num [MaterialProperties.empty])
    (by norm_num [MaterialProperties.empty])
    (by norm_num [Geometry.empty]) (by norm_num [Geometry.empty])
    (by norm_num [Geometry.empty]) (by norm_num [Geometry.empty])
    (by norm_num [MaterialProperties.empty])
  exact ⟨r1, r2, h1, (hyp1.1 r1 h1).2, h2, (hyp2.2 r2 h2).2⟩

/-- C8 (confirmed): two responses to the same request parameters (even
across different opaque network outputs) carry identical analytical
scalar fields — efficiency, energy consumption and every entry of
`additionalMetrics` (Reynolds number, friction factor / Nusselt number,
pressure drop / surface area, effective viscosity). -/
theorem claim_C8_analytical_determinism (p : SimulationParameters) (o1 o2 : List ℝ) :
    (∀ r1 r2, simulate_thermal_coil p o1 = .ok r1 → simulate_thermal_coil p o2 = .ok r2 →
      r1.efficiency = r2.efficiency ∧ r1.energyConsumption = r2.energyConsumption ∧
      r1.additionalMetrics = r2.additionalMetrics) ∧
    (∀ r1 r2, simulate_fluid_dynamics p o1 = .ok r1 → simulate_fluid_dynamics p o2 = .ok r2 →
      r1.efficiency = r2.efficiency ∧ r1.energyConsumption = r2.energyConsumption ∧
      r1.additionalMetrics = r2.additionalMetrics) ∧
    (∀ r1 r2, simulate_multi_phase p o1 = .ok r1 → simulate_multi_phase p o2 = .ok r2 →
      r1.efficiency = r2.efficiency ∧ r1.energyConsumption = r2.energyConsumption ∧
      r1.additionalMetrics = r2.additionalMetrics) := by
  refine ⟨?_, ?_, ?_⟩
  · intro r1 r2 h1 h2
    simp only [simulate_thermal_coil] at h1 h2
    split at h1
    · exact Except.noConfusion h1
    · rename_i a hqa
      split at h2
      · exact Except.noConfusion h2
      · rename_i b hqb
        injection h1 with h1
        injection h2 with h2
        subst h1
        subst h2
        obtain ⟨e1, e2, e3, e4, e5⟩ :=
          compute_heat_transfer_scalars_indep _ _ _ _ _ o1 o2 a b hqa hqb
        exact ⟨e1, by rw [e2], by rw [e3, e4, e5]⟩
  · intro r1 r2 h1 h2
    simp only [simulate_fluid_dynamics] at h1 h2
    split at h1
    · exact Except.noConfusion h1
    · rename_i a hqa
      split at h2
      · exact Except.noConfusion h2
      · rename_i b hqb
        injection h1 with h1
        injection h2 with h2
        subst h1
        subst h2
        obtain ⟨e1, e2, e3, e4⟩ :=
          compute_fluid_scalars_indep _ _ _ _ _ o1 o2 a b hqa hqb
        exact ⟨rfl, rfl, by rw [e1, e2, e3]⟩
  · intro r1 r2 h1 h2
    simp only [simulate_multi_phase] at h1 h2
    split at h1
    · exact Except.noConfusion h1
    · rename_i a hqa
      split at h2
      · exact Except.noConfusion h2
      · rename_i b hqb
        injection h1 with h1
        injection h2 with h2
        subst h1
        subst h2
        obtain ⟨e1, e2, e3, e4, e5⟩ :=
          compute_multi_scalars_indep _ _ _ _ _ o1 o2 a b hqa hqb
        exact ⟨rfl, rfl, by rw [e1, e3, e4]⟩

/-- Witness for C8: the default request answered twice, with two
different network output vectors, agrees on all analytical scalars. -/
theorem claim_C8_analytical_determinism_witness :
    ∃ r1 r2,
      simulate_thermal_coil SimulationParameters.empty [] = .ok r1 ∧
      simulate_thermal_coil SimulationParameters.empty [1, 2, 3] = .ok r2 ∧
      r1.efficiency = r2.efficiency ∧ r1.energyConsumption = r2.energyConsumption ∧
      r1.additionalMetrics = r2.additionalMetrics := by
  obtain ⟨r1, h1⟩ := simulate_thermal_defaults_ok []
  obtain ⟨r2, h2⟩ := simulate_thermal_defaults_ok [1, 2, 3]
  obtain ⟨e1, e2, e3⟩ :=
    (claim_C8_analytical_determinism SimulationParameters.empty [] [1, 2, 3]).1 r1 r2 h1 h2
  exact ⟨r1, r2, h1, h2, e1, e2, e3⟩

/-- C10 (confirmed): every successful fluid-dynamics response has the
input-independent constants efficiency 0.85, confidence 0.88, heatFlux
`[0.0, 0.0]` and energyConsumption 0.1; every multi-phase response has
efficiency 0.78 and confidence 0.85; every thermal-coil response has
confidence 0.92; every external-flow response has efficiency 0 and
confidence 0.9; and only the thermal-coil efficiency actually depends
on the parameters (two requests yield efficiencies 0 and 1). -/
theorem claim_C10_constant_response_fields :
    (∀ p o r, simulate_fluid_dynamics p o = .ok r →
      r.efficiency = 0.85 ∧ r.confidence = 0.88 ∧ r.heatFlux = [0.0, 0.0] ∧
      r.energyConsumption = 0.1) ∧
    (∀ p o r, simulate_multi_phase p o = .ok r →
      r.efficiency = 0.78 ∧ r.confidence = 0.85) ∧
    (∀ p o r, simulate_thermal_coil p o = .ok r → r.confidence = 0.92) ∧
    (∀ b p r, simulate_external_flow_golf_ball b p = .ok r →
      r.efficiency = 0 ∧ r.confidence = 0.9) ∧
    (∃ r1 r2, simulate_thermal_coil coldInletParams [] = .ok r1 ∧
      simulate_thermal_coil unitCoilParams [] = .ok r2 ∧
      r1.efficiency ≠ r2.efficiency) := by
  refine ⟨?_, ?_, ?_, ?_, ?_⟩
  · intro p o r hr
    simp only [simulate_fluid_dynamics] at hr
    split at hr
    · exact Except.noConfusion hr
    · injection hr with hr
      subst hr
      exact ⟨rfl, rfl, rfl, rfl⟩
  · intro p o r hr
    simp only [simulate_multi_phase] at hr
    split at hr
    · exact Except.noConfusion hr
    · injection hr with hr
      subst hr
      exact ⟨rfl, rfl⟩
  · intro p o r hr
    simp only [simulate_thermal_coil] at hr
    split at hr
    · exact Except.noConfusion hr
    · injection hr with hr
      subst hr
      rfl
  · intro b p r hr
    simp only [simulate_external_flow_golf_ball] at hr
    split at hr
    · exact Except.noConfusion hr
    · injection hr with hr
      subst hr
      exact ⟨rfl, rfl⟩
  · obtain ⟨r1, h1, e1⟩ := simulate_thermal_cold_inlet
    obtain ⟨r2, h2, e2⟩ := simulate_thermal_unit_coil
    refine ⟨r1, r2, h1, h2, ?_⟩
    rw [e1, e2]
    norm_num

/-- Witness for C10 at concrete successful requests of all four
simulation types. -/
theorem claim_C10_constant_response_fields_witness :
    ∃ r1 r2 r3 r4,
      simulate_fluid_dynamics SimulationParameters.empty [] = .ok r1 ∧
        r1.efficiency = 0.85 ∧ r1.confidence = 0.88 ∧
      simulate_multi_phase SimulationParameters.empty [] = .ok r2 ∧
        r2.efficiency = 0.78 ∧ r2.confidence = 0.85 ∧
      simulate_thermal_coil SimulationParameters.empty [] = .ok r3 ∧
        r3.confidence = 0.92 ∧
      simulate_external_flow_golf_ball true SimulationParameters.empty = .ok r4 ∧
        r4.efficiency = 0 ∧ r4.confidence = 0.9 := by
  obtain ⟨r1, h1⟩ := simulate_fluid_defaults_ok []
  obtain ⟨r2, h2⟩ := simulate_multi_defaults_ok []
  obtain ⟨r3, h3⟩ := simulate_thermal_defaults_ok []
  obtain ⟨c1, c2, _, _⟩ := claim_C10_constant_response_fields.1 _ _ r1 h1
  obtain ⟨d1, d2⟩ := claim_C10_constant_response_fields.2.1 _ _ r2 h2
  have d3 := claim_C10_constant_response_fields.2.2.1 _ _ r3 h3
  obtain ⟨d4, d5⟩ := claim_C10_constant_response_fields.2.2.2.1 true
    SimulationParameters.empty _ rfl
  exact ⟨r1, r2, r3, _, h1, c1, c2, h2, d1, d2, h3, d3, rfl, d4, d5⟩

end
